import Mathlib

/-!
Verification development for the RabbitMQ microservices remote controller.

The embedding follows the Python sources:
  * resolver.py               — the output parser (resolve_preferences and the
                                per-event preference field lists),
  * pwsh_handler.py           — the dispatch orchestrator (get_body, call_handler,
                                process_invoking_command),
  * pwsh_client.py            — the PowerShell subprocess client (PwshClient),
  * service_framework/broker/rabbit_broker_async.py
                              — connection manager and bus gateway state handling,
  * service_framework/share_files/preferences_model.py
                              — BodyModel validation and the schema field lists,
  * service_framework/share_files/pwsh_commands.py — COMMANDS_IN_USE.

Modelling conventions:
  * Python strings are Lean String / List Char; character classes (str.isdigit,
    the regex class \s, str.strip) are modelled at ASCII granularity, which is
    the alphabet of the PowerShell output this service parses.
  * A Python function that can raise is modelled with Option / Except /
    an explicit result inductive; a `none` / `.error` value models a raised
    exception.
  * asyncio scheduling is modelled by keeping each concurrent task's published
    messages as a separate list; awaited publishes that happen before any task
    is created are kept outside those lists, which preserves the
    "acknowledgment before any per-host result" ordering for every
    interleaving of the task traces.
-/

/-! ## Output parser: resolver.py -/

/-- Character class of the regex escape \s and of str.strip, at ASCII
granularity: space, tab, newline, carriage return, vertical tab, form feed. -/
def isPySpace (c : Char) : Bool :=
  c = ' ' || c = '\t' || c = '\n' || c = '\r' || c = '\x0b' || c = '\x0c'

/-- Does the pattern list stand at the head of the subject list? -/
def startsWithChars : List Char → List Char → Bool
  | [], _ => true
  | _ :: _, [] => false
  | p :: ps, c :: cs => p = c && startsWithChars ps cs

/-- Model of the tail regex (.+)\n at a fixed position: greedily capture the
rest of the current line (at least one character, a dot never matches a
newline) and require the terminating newline. -/
def captureLine (s : List Char) : Option (List Char) :=
  let cap := s.takeWhile (fun ch => !(ch = '\n'))
  match s.dropWhile (fun ch => !(ch = '\n')) with
  | c :: _ => if c = '\n' then (if cap.isEmpty then none else some cap) else none
  | [] => none

/-- Model of the regex fragment \s*\:\s(.+)\n applied right after the field
name: skip the maximal whitespace run, require a colon, require one
whitespace character, then capture the rest of the line before a mandatory
newline.  (The greedy \s* cannot backtrack usefully: any shorter run leaves
a whitespace character where the colon is required.) -/
def matchTail (s : List Char) : Option (List Char) :=
  match s.dropWhile isPySpace with
  | c1 :: c2 :: rest =>
    if c1 = ':' then (if isPySpace c2 then captureLine rest else none)
    else none
  | _ => none

/-- Try the whole pattern {name}\s*\:\s(.+)\n at one fixed position. -/
def tryMatchAt (name s : List Char) : Option (List Char) :=
  if startsWithChars name s then matchTail (s.drop name.length) else none

/-- Model of re.search: scan positions left to right and return the capture
group of the first position where the whole pattern matches. -/
def reSearch (name : List Char) : List Char → Option (List Char)
  | [] => tryMatchAt name []
  | c :: rest =>
    match tryMatchAt name (c :: rest) with
    | some cap => some cap
    | none => reSearch name rest

/-- Model of .replace('\x7b', '').replace('\x7d', ''): delete every brace. -/
def stripBraces (s : List Char) : List Char :=
  s.filter (fun c => !(c = '\x7b') && !(c = '\x7d'))

/-- Model of str.strip() (the following .rstrip() in the source is redundant):
drop whitespace from both ends. -/
def pyStrip (s : List Char) : List Char :=
  ((s.dropWhile isPySpace).reverse.dropWhile isPySpace).reverse

/-- Decimal value of a digit string, as int() computes it on '0'..'9'. -/
def decVal (s : List Char) : Nat :=
  s.foldl (fun a c => a * 10 + (c.toNat - 48)) 0

/-- Model of Python hex() on a non-negative integer: the 0x tag followed by
lowercase hexadecimal digits. -/
def pyHex (n : Nat) : List Char :=
  '0' :: 'x' :: Nat.toDigits 16 n

/-- Model of str.isdigit at ASCII granularity: non-empty and all decimal
digits. -/
def pyIsDigit (s : List Char) : Bool :=
  !s.isEmpty && s.all Char.isDigit

/-- Value post-processing of resolve_preferences: strip braces, trim
whitespace, and turn an all-digit value into its hexadecimal form. -/
def resolveValue (cap : List Char) : List Char :=
  let tmp := pyStrip (stripBraces cap)
  if pyIsDigit tmp then pyHex (decVal tmp) else tmp

/-- A parsed preference record, the element shape appended by
resolve_preferences. -/
structure PrefRecord where
  pref_name : String
  pref_val : String
  deriving Repr, DecidableEq

/-- Field list of get_status_pref_list in resolver.py. -/
def statusPrefList : List String :=
  ["AntivirusSignatureLastUpdated",
   "AntivirusSignatureVersion",
   "AntivirusEnabled"]

/-- Field list of get_mp_prefs_list: the keys of
MpPreferencesModel.schema()['properties'].  pydantic emits the schema keys
through the configured alias generator to_camel, base-class fields first;
the list below is that aliased key sequence. -/
def mpPrefsList : List String :=
  ["CimSession",
   "ThrottleLimit",
   "AsJob",
   "ExclusionPath",
   "ExclusionExtension",
   "ExclusionProcess",
   "RealTimeScanDirection",
   "QuarantinePurgeItemsAfterDelay",
   "RemediationScheduleDay",
   "RemediationScheduleTime",
   "ReportingAdditionalActionTimeOut",
   "ReportingCriticalFailureTimeOut",
   "ReportingNonCriticalTimeOut",
   "ScanAvgCPULoadFactor",
   "CheckForSignaturesBeforeRunningScan",
   "ScanPurgeItemsAfterDelay",
   "ScanOnlyIfIdleEnabled",
   "ScanParameters",
   "ScanScheduleDay",
   "ScanScheduleQuickScanTime",
   "ScanScheduleTime",
   "SignatureFirstAuGracePeriod",
   "SignatureAuGracePeriod",
   "SignatureDefinitionUpdateFileSharesSources",
   "SignatureDisableUpdateOnStartupWithoutEngine",
   "SignatureFallbackOrder",
   "SignatureScheduleDay",
   "SignatureScheduleTime",
   "SignatureUpdateCatchupInterval",
   "SignatureUpdateInterval",
   "MAPSReporting",
   "SubmitSamplesConsent",
   "DisableAutoExclusions",
   "DisablePrivacyMode",
   "RandomizeScheduleTaskTimes",
   "DisableBehaviorMonitoring",
   "DisableIOAVProtection",
   "DisableRealtimeMonitoring",
   "DisableScriptScanning",
   "DisableArchiveScanning",
   "DisableCatchupFullScan",
   "DisableCatchupQuickScan",
   "DisableCpuThrottleOnIdleScans",
   "DisableEmailScanning",
   "DisableRemovableDriveScanning",
   "DisableRestorePoint",
   "DisableScanningMappedNetworkDrivesForFullScan",
   "DisableScanningNetworkFiles",
   "UILockdown",
   "ThreatIDDefaultAction_Ids",
   "ThreatIDDefaultAction_Actions",
   "UnknownThreatDefaultAction",
   "LowThreatDefaultAction",
   "ModerateThreatDefaultAction",
   "HighThreatDefaultAction",
   "SevereThreatDefaultAction",
   "DisableBlockAtFirstSeen",
   "PUAProtection",
   "DefinitionUpdatesChannel",
   "EngineUpdatesChannel",
   "PlatformUpdatesChannel"]

/-- Model of the get_prefs_list dispatch dict in resolver.py: the per-event
field-list providers; a missing key gives none (dict.get returns None, and
the subsequent call None() raises TypeError). -/
def prefsListFor : String → Option (List String)
  | "Get-MpPreference" => some mpPrefsList
  | "Get-MpComputerStatus" => some statusPrefList
  | _ => none

/-- Model of resolve_preferences in resolver.py.  The result none models the
TypeError raised by get_prefs_list.get(event)() when the event is not a key
of the dispatch dict; otherwise every schema field whose pattern matches the
raw text contributes one record. -/
def resolve_preferences (raw_prefs event : String) : Option (List PrefRecord) :=
  (prefsListFor event).map fun prefs =>
    prefs.filterMap fun pref =>
      (reSearch pref.data raw_prefs.data).map fun cap =>
        { pref_name := pref, pref_val := String.mk (resolveValue cap) }


/-! ## Commands and body validation: pwsh_commands.py, preferences_model.py -/

/-- Model of COMMANDS_IN_USE in pwsh_commands.py. -/
def COMMANDS_IN_USE : List String :=
  ["Set-MpPreference",
   "Start-MpScan",
   "Update-MpSignature",
   "Get-MpPreference",
   "Get-MpComputerStatus"]

/-- Model of the validated BodyModel of preferences_model.py.  Preferences
are kept as the alias/value pairs that .dict(exclude_unset=True,
by_alias=True) later reproduces. -/
structure BodyModel where
  hostnames : List String
  task_id : Int
  event : String
  preferences : List (String × String)
  deriving Repr, DecidableEq

/-- Inbound message body after the json.loads step: either the load itself
raised, or it produced a record with the four expected fields. -/
inductive DecodedJson where
  | invalid (reason : String)
  | record (hostnames : List String) (task_id : Int) (event : String)
      (preferences : List (String × String))
  deriving Repr, DecidableEq

/-- Model of get_body in pwsh_handler.py: json decoding composed with
BodyModel validation.  The event validator accepts only members of
COMMANDS_IN_USE; any failure is logged and the function falls through,
returning None (modelled as none). -/
def get_body : DecodedJson → Option BodyModel
  | .invalid _ => none
  | .record hs tid ev prefs =>
    if ev ∈ COMMANDS_IN_USE then some ⟨hs, tid, ev, prefs⟩ else none

/-! ## Dispatch orchestrator: pwsh_handler.py -/

/-- Shape of an outbound message body built by the handler. -/
inductive MsgBody where
  | ack (task_id : Int)
  | errorNote (host_ip : String) (message : String) (category : String)
  | result (host_ip : String) (preferences : List PrefRecord)
  deriving Repr, DecidableEq

/-- One publish: the index into config.route_publish (0 error-notification,
1 receipt-acknowledgment, 2 settings-result, 3 status-result) and the body. -/
structure Pub where
  route : Nat
  body : MsgBody
  deriving Repr, DecidableEq

/-- Literal ERROR_CAT of pwsh_handler.py. -/
def ERROR_CAT : String := "__PowerShell error"

/-- Model of ERROR_MSG.format(x) of pwsh_handler.py. -/
def errorMsgFmt (s : String) : String :=
  "Invoke PowerShell command error. " ++ s

/-- Outcome of the whole guarded invocation block of
process_invoking_command: either the Remote Command Runner (including the
preference-model construction inside the try block) raised with a message,
or it returned the pair (stdout, stderr). -/
def RunnerOutcome : Type := Except String (String × String)

/-- Model of process_invoking_command in pwsh_handler.py for one host.
Returns the list of messages this task publishes, in order, and whether the
task terminates by raising.  On a runner exception the error notification is
published on route 0 and the exception re-raised.  On success, a truthy
(non-empty) stdout first forces the resolve_preferences call while the
message dict is being built: for an event outside the parser's dispatch
dict that call raises TypeError and the task dies having published nothing
further; otherwise the parsed message goes to route 2 for Get-MpPreference,
route 3 for Get-MpComputerStatus, and nowhere for other events.  Finally a
stderr that is non-empty and longer than one character goes to route 0. -/
def process_invoking_command (hostname event : String)
    (outcome : RunnerOutcome) : List Pub × Bool :=
  match outcome with
  | .error e =>
    ([{ route := 0,
        body := .errorNote hostname (errorMsgFmt e) ERROR_CAT }], true)
  | .ok (out, err) =>
    let errPubs : List Pub :=
      if err ≠ "" ∧ err.length > 1 then
        [{ route := 0,
           body := .errorNote hostname (errorMsgFmt err) ERROR_CAT }]
      else []
    if out ≠ "" then
      match resolve_preferences out event with
      | none => ([], true)
      | some prefs =>
        let succPubs : List Pub :=
          if event = "Get-MpPreference" then
            [{ route := 2, body := .result hostname prefs }]
          else if event = "Get-MpComputerStatus" then
            [{ route := 3, body := .result hostname prefs }]
          else []
        (succPubs ++ errPubs, false)
    else
      (errPubs, false)

/-- Per-host task traces launched by call_handler: one fresh task per
hostname, order preserving, no deduplication. -/
def dispatchTasks (b : BodyModel) (runner : String → RunnerOutcome) :
    List (List Pub × Bool) :=
  b.hostnames.map fun h => process_invoking_command h b.event (runner h)

/-- Model of call_handler in pwsh_handler.py.  When get_body yields no body
(decode or validation failure), the attribute access decrypted_body.task_id
raises before the acknowledgment publish is reached: the result is an error
with nothing published and no task created.  Otherwise the receipt
acknowledgment carrying the task id is awaited on route 1 before any
per-host task is created, and one task per hostname is started. -/
def call_handler (raw : DecodedJson) (runner : String → RunnerOutcome) :
    Except String (Pub × List (List Pub × Bool)) :=
  match get_body raw with
  | none => .error "AttributeError"
  | some b => .ok ({ route := 1, body := .ack b.task_id }, dispatchTasks b runner)

/-- All messages the handler publishes for one inbound message: none on a
decode failure; otherwise the acknowledgment followed by the per-host task
traces (whose relative interleaving the event loop chooses). -/
def publishedOf (r : Except String (Pub × List (List Pub × Bool))) : List Pub :=
  match r with
  | .error _ => []
  | .ok (ackPub, tasks) => ackPub :: (tasks.map Prod.fst).flatten

/-- The per-host tasks the handler creates for one inbound message. -/
def tasksOf (r : Except String (Pub × List (List Pub × Bool))) :
    List (List Pub × Bool) :=
  match r with
  | .error _ => []
  | .ok (_, tasks) => tasks


/-! ## PowerShell client: pwsh_client.py -/

/-- Model of PowerShellConfig from config_handler.py, restricted to the
fields PwshClient reads. -/
structure PowerShellConfig where
  username : String
  key_path : String
  program : String
  deriving Repr, DecidableEq

/-- Model of the PwshClient instance state: the mutable cmd argument list
plus the two immutable credential fields. -/
structure PwshClient where
  cmd : List String
  key : String
  username : String
  deriving Repr, DecidableEq

/-- Model of PwshClient.__init__: cmd starts as the program name and the
literal -command flag. -/
def PwshClient.init (config : PowerShellConfig) : PwshClient :=
  { cmd := [config.program, "-command"],
    key := config.key_path,
    username := config.username }

/-- Model of the R_NEW_MP_SESSION template of pwsh_commands.py. -/
def R_NEW_MP_SESSION (user_host key : String) : String :=
  "\n    $session = New-PSSession -HostName " ++ user_host ++
    " -KeyFilePath " ++ key ++ "\n"

/-- Model of the R_INVOKE_COMMAND template of pwsh_commands.py (the doubled
braces of the template are literal braces around the script block). -/
def R_INVOKE_COMMAND (command : String) : String :=
  "\n    Invoke-Command -Session $session -ScriptBlock \x7b" ++ command ++ "\x7d\n"

/-- Model of PwshClient.create_script: append one -key value pair per
preference to the command, then join the session template and the
invocation template with a newline. -/
def PwshClient.create_script (c : PwshClient) (hostname command : String)
    (preferences : List (String × String)) : String :=
  let cmd := preferences.foldl
    (fun acc p => acc ++ " -" ++ p.1 ++ " " ++ p.2) command
  R_NEW_MP_SESSION (c.username ++ "@" ++ hostname) c.key ++ "\n" ++
    R_INVOKE_COMMAND cmd

/-- Model of PwshClient.run: the script is appended to the instance's cmd
field (a permanent mutation of the client), and the subprocess is spawned
with exactly that argument list.  The result is the mutated client and the
argument list the subprocess received. -/
def PwshClient.run (c : PwshClient) (script : String) :
    PwshClient × List String :=
  let c2 : PwshClient := { c with cmd := c.cmd ++ [script] }
  (c2, c2.cmd)

/-- Model of PwshClient.invoke_command: build the script and run it. -/
def PwshClient.invoke_command (c : PwshClient) (hostname command : String)
    (preferences : List (String × String)) : PwshClient × List String :=
  c.run (c.create_script hostname command preferences)

/-- Argument list received by the subprocess of the per-host dispatch task
for one hostname: call_handler constructs a fresh PwshClient from the
config for every task, and the task invokes exactly one command on it. -/
def taskInvocation (config : PowerShellConfig) (b : BodyModel)
    (hostname : String) : List String :=
  ((PwshClient.init config).invoke_command hostname b.event b.preferences).2

/-! ## Connection manager: rabbit_broker_async.py (RabbitClientAsync) -/

/-- Fixed reconnect delay TIMEOUT_SET_UP_CONN of rabbit_broker_async.py. -/
def TIMEOUT_SET_UP_CONN : Nat := 5

/-- Model of the RabbitClientAsync instance state: whether the connection
and channel objects exist, and the two boolean flags. -/
structure ClientState where
  connection : Bool
  channel : Bool
  has_connection : Bool
  has_channel : Bool
  deriving Repr, DecidableEq

/-- Result of create_connection: a missing event loop raises
NotImplementedError (fatal); otherwise the call only returns once an
attempt succeeds, after sleeping the fixed delay before each retry; if the
scripted attempt list is exhausted with no success the call is still inside
the retry loop. -/
inductive ConnResult where
  | fatalNoLoop
  | connected (s : ClientState) (totalDelay : Nat)
  | retrying (s : ClientState) (totalDelay : Nat)
  deriving Repr, DecidableEq

/-- Retry loop of create_connection over a script of connect_robust attempt
outcomes (true = the attempt succeeds).  Each failure resets has_connection,
sleeps TIMEOUT_SET_UP_CONN and recurses; a success stores the connection
and sets has_connection. -/
def connectLoop : ClientState → List Bool → Nat → ConnResult
  | s, [], d => .retrying s d
  | s, true :: _, d =>
    .connected { s with connection := true, has_connection := true } d
  | s, false :: rest, d =>
    connectLoop { s with has_connection := false } rest
      (d + TIMEOUT_SET_UP_CONN)

/-- Model of RabbitClientAsync.create_connection: raises when the loop is
absent, otherwise runs the retry loop.  Every exception of an attempt is
caught inside the loop (never re-raised); only the missing event loop
escapes. -/
def create_connection (loopExists : Bool) (s : ClientState)
    (attempts : List Bool) : ConnResult :=
  if loopExists then connectLoop s attempts 0 else .fatalNoLoop

/-- Outcome of the single self.connection.channel() call inside
create_channel: success, a CHANNEL_EXCEPTIONS member, or any other
exception. -/
inductive ChanOutcome where
  | ok
  | chanFault (msg : String)
  | otherFault (msg : String)
  deriving Repr, DecidableEq

/-- Result of create_channel: either the connection-present branch ran
(final state plus the exception it re-raised, if any), or the
connection-absent branch delegated to create_connection without opening a
channel. -/
inductive ChanResult where
  | done (s : ClientState) (raised : Option String)
  | connPath (r : ConnResult)
  deriving Repr, DecidableEq

/-- Model of RabbitClientAsync.create_channel.  With a connection present:
on success the channel is stored, has_channel set and the prefetch count
configured; a CHANNEL_EXCEPTIONS failure sets has_connection (not
has_channel) to false and re-raises; any other failure re-raises with no
flag change.  With no connection it only calls create_connection. -/
def create_channel (loopExists : Bool) (s : ClientState)
    (outcome : ChanOutcome) (attempts : List Bool) : ChanResult :=
  if s.connection then
    match outcome with
    | .ok => .done { s with channel := true, has_channel := true } none
    | .chanFault m => .done { s with has_connection := false } (some m)
    | .otherFault m => .done s (some m)
  else
    .connPath (create_connection loopExists s attempts)

/-! ## Bus gateway declare/bind fault handling: RabbitBrokerAsync -/

/-- Fault classes of the declare/bind except clauses: the
CONNECTION_EXCEPTIONS clause, the CHANNEL_EXCEPTIONS clause, and the final
generic Exception clause. -/
inductive BrokerFault where
  | conn (msg : String)
  | chan (msg : String)
  | other (msg : String)
  deriving Repr, DecidableEq

/-- State after check_connection has succeeded: both objects exist and both
flags are set (create_connection / create_channel ran as needed). -/
def afterCheckConnection (s : ClientState) : ClientState :=
  { s with connection := true, channel := true,
           has_connection := true, has_channel := true }

/-- Shared fault handling of declare_exchange, declare_queue and bind_queue:
a connection-level fault resets both flags, a channel-level fault resets
only has_channel, a generic fault resets nothing; in every fault case the
exception is logged and swallowed and the operation returns None (modelled
as none) instead of the declared object. -/
def declareFaultStep (s : ClientState) (fault : Option BrokerFault) :
    ClientState × Option Unit :=
  match fault with
  | none => (s, some ())
  | some (.conn _) =>
    ({ s with has_connection := false, has_channel := false }, none)
  | some (.chan _) => ({ s with has_channel := false }, none)
  | some (.other _) => (s, none)

/-- Model of RabbitBrokerAsync.declare_exchange: check_connection, then the
declare guarded by the three except clauses. -/
def declare_exchange (s : ClientState) (fault : Option BrokerFault) :
    ClientState × Option Unit :=
  declareFaultStep (afterCheckConnection s) fault

/-- Model of RabbitBrokerAsync.declare_queue: same guard structure. -/
def declare_queue (s : ClientState) (fault : Option BrokerFault) :
    ClientState × Option Unit :=
  declareFaultStep (afterCheckConnection s) fault

/-- Model of RabbitBrokerAsync.bind_queue: same guard structure. -/
def bind_queue (s : ClientState) (fault : Option BrokerFault) :
    ClientState × Option Unit :=
  declareFaultStep (afterCheckConnection s) fault

/-! ## Message classification helpers -/

/-- A publish on the receipt-acknowledgment route (route_publish[1]). -/
def Pub.isAck (p : Pub) : Bool := p.route = 1

/-- A publish on the error-notification route (route_publish[0]). -/
def Pub.isErrorNote (p : Pub) : Bool := p.route = 0

/-- A publish on the settings-result or status-result route
(route_publish[2] or route_publish[3]). -/
def Pub.isResultMsg (p : Pub) : Bool := p.route = 2 || p.route = 3

/-! ## Theorems -/

/-- C4: for every inbound message whose body is malformed JSON or fails
BodyModel validation (get_body yields no body), call_handler publishes no
message on any route and creates no per-host task: the attribute access on
the missing body aborts the handler before the acknowledgment publish is
reached. -/
theorem c4_invalid_message_publishes_nothing (raw : DecodedJson)
    (runner : String → RunnerOutcome) (hfail : get_body raw = none) :
    publishedOf (call_handler raw runner) = [] ∧
    tasksOf (call_handler raw runner) = [] := by
  unfold call_handler
  rw [hfail]
  exact ⟨rfl, rfl⟩

/-- Witness for C4 at the concrete end-to-end scenario: an inbound message
whose event Get-MpThreat is not a member of COMMANDS_IN_USE fails
validation, and nothing is published and no task is started. -/
theorem c4_invalid_message_publishes_nothing_witness :
    get_body (.record ["h1"] 7 "Get-MpThreat" []) = none ∧
    publishedOf (call_handler (.record ["h1"] 7 "Get-MpThreat" [])
      (fun _ => .ok ("", ""))) = [] ∧
    tasksOf (call_handler (.record ["h1"] 7 "Get-MpThreat" [])
      (fun _ => .ok ("", ""))) = [] := by
  refine ⟨by decide, ?_⟩
  exact c4_invalid_message_publishes_nothing _ _ (by decide)

/-- C5: when the Remote Command Runner invocation raises, the per-host task
publishes exactly one message, an error notification on route 0 carrying
the hostname, the formatted message and the error category, and the task
re-raises (terminates as failed); in particular no settings-result or
status-result message appears in its trace. -/
theorem c5_runner_exception_routed_and_reraised (h ev e : String) :
    process_invoking_command h ev (.error e) =
      ([{ route := 0, body := .errorNote h (errorMsgFmt e) ERROR_CAT }],
        true) := rfl

/-- C7: for each of declare_exchange, declare_queue and bind_queue, a
connection-level fault resets both state flags, a channel-level fault
resets only the channel flag, and in either case the operation returns the
null result none instead of propagating the exception. -/
theorem c7_declare_bind_fault_degradation (s : ClientState) (m : String) :
    (declare_exchange s (some (.conn m)) =
        ({ connection := true, channel := true,
           has_connection := false, has_channel := false }, none) ∧
      declare_queue s (some (.conn m)) =
        ({ connection := true, channel := true,
           has_connection := false, has_channel := false }, none) ∧
      bind_queue s (some (.conn m)) =
        ({ connection := true, channel := true,
           has_connection := false, has_channel := false }, none)) ∧
    (declare_exchange s (some (.chan m)) =
        ({ connection := true, channel := true,
           has_connection := true, has_channel := false }, none) ∧
      declare_queue s (some (.chan m)) =
        ({ connection := true, channel := true,
           has_connection := true, has_channel := false }, none) ∧
      bind_queue s (some (.chan m)) =
        ({ connection := true, channel := true,
           has_connection := true, has_channel := false }, none)) :=
  ⟨⟨rfl, rfl, rfl⟩, ⟨rfl, rfl, rfl⟩⟩

/-- Helper for C8: the connect retry loop ends in the connected state after
any finite run of failed attempts followed by a success, having slept the
fixed delay once per failure. -/
theorem connectLoop_replicate_false (s : ClientState) (n d : Nat) :
    connectLoop s (List.replicate n false ++ [true]) d =
      .connected { s with connection := true, has_connection := true }
        (d + n * TIMEOUT_SET_UP_CONN) := by
  induction n generalizing s d with
  | zero => simp [connectLoop]
  | succ k ih =>
    have h1 : List.replicate (k + 1) false ++ [true] =
        false :: (List.replicate k false ++ [true]) := by
      simp [List.replicate_succ]
    rw [h1]
    show connectLoop { s with has_connection := false }
      (List.replicate k false ++ [true]) (d + TIMEOUT_SET_UP_CONN) = _
    rw [ih]
    have h2 : d + TIMEOUT_SET_UP_CONN + k * TIMEOUT_SET_UP_CONN =
        d + (k + 1) * TIMEOUT_SET_UP_CONN := by
      simp only [TIMEOUT_SET_UP_CONN]
      omega
    rw [h2]

/-- C8 counterexample: from a state with a live connection and both flags
set, a CHANNEL_EXCEPTIONS failure of the channel() call leaves has_channel
untouched (it resets has_connection instead) and re-raises the exception to
the caller, contradicting the claim that channel faults reset the
channel-ready flag and are swallowed at this layer. -/
theorem c8_channel_fault_counterexample :
    create_channel true
        { connection := true, channel := false,
          has_connection := true, has_channel := true }
        (.chanFault "ChannelClosed") [] =
      .done { connection := true, channel := false,
              has_connection := false, has_channel := true }
        (some "ChannelClosed") ∧
    create_channel true
        { connection := true, channel := false,
          has_connection := true, has_channel := true }
        (.chanFault "ChannelClosed") [] ≠
      .done { connection := true, channel := false,
              has_connection := true, has_channel := false } none := by
  constructor
  · rfl
  · decide

/-- C8 amended: connection-setup failures reset has_connection, are
swallowed, and retry indefinitely with the fixed 5-second delay (after any
n failures the loop is still running and a success then connects); the only
raised bootstrap failure is the missing event loop; channel-setup failures
reset has_connection, leave has_channel untouched, and are re-raised to the
caller (an unclassified failure is re-raised with no flag change). -/
theorem c8_connection_swallowed_channel_reraised (s : ClientState) (n : Nat)
    (m : String) (attempts : List Bool) (hconn : s.connection = true) :
    create_connection true s (List.replicate n false ++ [true]) =
      .connected { s with connection := true, has_connection := true }
        (n * TIMEOUT_SET_UP_CONN) ∧
    create_connection false s attempts = .fatalNoLoop ∧
    create_channel true s (.chanFault m) attempts =
      .done { s with has_connection := false } (some m) ∧
    create_channel true s (.otherFault m) attempts = .done s (some m) := by
  refine ⟨?_, rfl, ?_, ?_⟩
  · have := connectLoop_replicate_false s n 0
    simpa [create_connection] using this
  · simp [create_channel, hconn]
  · simp [create_channel, hconn]

/-- Witness for C8 amended at a concrete state, two failed connect attempts
and a concrete channel fault. -/
theorem c8_connection_swallowed_channel_reraised_witness :
    ({ connection := true, channel := false,
       has_connection := false, has_channel := false } : ClientState).connection
        = true ∧
    (create_connection true
        { connection := true, channel := false,
          has_connection := false, has_channel := false }
        (List.replicate 2 false ++ [true]) =
      .connected { connection := true, channel := false,
                   has_connection := true, has_channel := false }
        (2 * TIMEOUT_SET_UP_CONN) ∧
    create_connection false
        { connection := true, channel := false,
          has_connection := false, has_channel := false } [false] =
      .fatalNoLoop ∧
    create_channel true
        { connection := true, channel := false,
          has_connection := false, has_channel := false }
        (.chanFault "ChannelClosed") [false] =
      .done { connection := true, channel := false,
              has_connection := false, has_channel := false }
        (some "ChannelClosed") ∧
    create_channel true
        { connection := true, channel := false,
          has_connection := false, has_channel := false }
        (.otherFault "ChannelClosed") [false] =
      .done { connection := true, channel := false,
              has_connection := false, has_channel := false }
        (some "ChannelClosed")) :=
  ⟨rfl, c8_connection_swallowed_channel_reraised
    { connection := true, channel := false,
      has_connection := false, has_channel := false } 2 "ChannelClosed"
    [false] rfl⟩

/-- C10: PwshClient.run permanently appends the script to the instance cmd
list, so a second run on the same client spawns a subprocess whose argument
list contains both scripts; and the per-host dispatch task builds a fresh
client from the config, so its single invocation receives exactly the two
base arguments plus one script. -/
theorem c10_run_appends_and_fresh_client (cfg : PowerShellConfig)
    (c : PwshClient) (s1 s2 : String) (b : BodyModel) (h : String) :
    ((c.run s1).1.run s2).2 = c.cmd ++ [s1, s2] ∧
    taskInvocation cfg b h =
      [cfg.program, "-command",
        (PwshClient.init cfg).create_script h b.event b.preferences] := by
  constructor
  · simp [PwshClient.run]
  · rfl

/-! ## Parser lemmas -/

/-- Helper: on text with no newline the line capture fails, because the
pattern requires a newline after the captured value. -/
theorem captureLine_eq_none_of_no_newline (s : List Char)
    (h : ∀ c ∈ s, c ≠ '\n') : captureLine s = none := by
  unfold captureLine
  have hdrop : s.dropWhile (fun ch => !(ch = '\n')) = [] := by
    rw [List.dropWhile_eq_nil_iff]
    intro x hx
    simpa using h x hx
  rw [hdrop]

/-- Helper: on text with no newline the tail pattern \s*\:\s(.+)\n fails. -/
theorem matchTail_eq_none_of_no_newline (s : List Char)
    (h : ∀ c ∈ s, c ≠ '\n') : matchTail s = none := by
  unfold matchTail
  have hsub : ∀ c ∈ s.dropWhile isPySpace, c ≠ '\n' := fun c hc =>
    h c ((List.dropWhile_sublist isPySpace).subset hc)
  cases hd : s.dropWhile isPySpace with
  | nil => rfl
  | cons a t =>
    cases t with
    | nil => rfl
    | cons b u =>
      have hu : ∀ x ∈ u, x ≠ '\n' := by
        intro x hx
        apply hsub
        rw [hd]
        exact List.mem_cons_of_mem _ (List.mem_cons_of_mem _ hx)
      by_cases ha : a = ':'
      · subst ha
        by_cases hb : isPySpace b
        · simp only [if_pos rfl, if_pos hb]
          exact captureLine_eq_none_of_no_newline u hu
        · simp [hb]
      · simp [ha]

/-- Helper: on text with no newline a fixed-position match fails. -/
theorem tryMatchAt_eq_none_of_no_newline (name s : List Char)
    (h : ∀ c ∈ s, c ≠ '\n') : tryMatchAt name s = none := by
  unfold tryMatchAt
  split
  · exact matchTail_eq_none_of_no_newline _ fun c hc =>
      h c (List.drop_subset _ _ hc)
  · rfl

/-- Helper: on text with no newline the whole regex search fails. -/
theorem reSearch_eq_none_of_no_newline (name s : List Char)
    (h : ∀ c ∈ s, c ≠ '\n') : reSearch name s = none := by
  induction s with
  | nil =>
    unfold reSearch
    exact tryMatchAt_eq_none_of_no_newline name [] (by intro c hc; cases hc)
  | cons a t ih =>
    unfold reSearch
    rw [tryMatchAt_eq_none_of_no_newline name (a :: t) h]
    exact ih fun c hc => h c (List.mem_cons_of_mem _ hc)

/-- C3 counterexample: for an event that is not a key of the parser's
dispatch dict (Get-MpThreat is a real command of the codebase but not a
parser key), resolve_preferences raises TypeError (None is not callable),
modelled by the none result — so the parser is not total over every event
argument. -/
theorem c3_unknown_event_raises :
    resolve_preferences "" "Get-MpThreat" = none := rfl

/-- C3 amended: for every raw text and every event in the parser's dispatch
dict, resolve_preferences returns a list without raising, and fields absent
from the raw text are omitted, so the list is never longer than the event's
schema field list. -/
theorem c3_total_on_supported_events (raw event : String)
    (prefs : List String) (hev : prefsListFor event = some prefs) :
    (resolve_preferences raw event).isSome = true ∧
    ((resolve_preferences raw event).getD []).length ≤ prefs.length := by
  unfold resolve_preferences
  rw [hev]
  exact ⟨rfl, List.length_filterMap_le _ _⟩

/-- Witness for C3 amended: a malformed raw text on a supported event
yields a list (here of length 0) rather than an exception. -/
theorem c3_total_on_supported_events_witness :
    prefsListFor "Get-MpPreference" = some mpPrefsList ∧
    (resolve_preferences ": \x7b\x7d garbage" "Get-MpPreference").isSome
      = true ∧
    ((resolve_preferences ": \x7b\x7d garbage" "Get-MpPreference").getD
      []).length ≤ mpPrefsList.length :=
  ⟨rfl, c3_total_on_supported_events _ _ _ rfl⟩

/-- Helper: a list is a prefix of itself followed by anything. -/
theorem startsWithChars_append (p t : List Char) :
    startsWithChars p (p ++ t) = true := by
  induction p with
  | nil => rfl
  | cons a q ih => simpa [startsWithChars] using ih

/-- Helper: matching at the position where the field name stands reduces to
matching the tail pattern on what follows the name. -/
theorem tryMatchAt_self_append (p t : List Char) :
    tryMatchAt p (p ++ t) = matchTail t := by
  unfold tryMatchAt
  rw [startsWithChars_append]
  simp [List.drop_left]

/-- Helper: re.search returns the leftmost match; in particular if the
pattern matches at the very start it returns that capture. -/
theorem reSearch_of_tryMatchAt (name s : List Char) (cap : List Char)
    (h : tryMatchAt name s = some cap) : reSearch name s = some cap := by
  cases s with
  | nil => unfold reSearch; rw [h]
  | cons a t => unfold reSearch; rw [h]

/-- Helper: takeWhile and dropWhile around the first element refuting the
predicate. -/
theorem takeWhile_dropWhile_append (p : Char → Bool) (v r : List Char)
    (x : Char) (hv : ∀ c ∈ v, p c = true) (hx : p x = false) :
    (v ++ x :: r).takeWhile p = v ∧ (v ++ x :: r).dropWhile p = x :: r := by
  induction v with
  | nil => simp [List.takeWhile, List.dropWhile, hx]
  | cons a w ih =>
    have ha : p a = true := hv a (List.mem_cons_self _ _)
    have hw : ∀ c ∈ w, p c = true := fun c hc =>
      hv c (List.mem_cons_of_mem _ hc)
    obtain ⟨ih1, ih2⟩ := ih hw
    constructor
    · simp [List.takeWhile, ha, ih1]
    · simp [List.dropWhile, ha, ih2]

/-- Helper: the tail pattern on a text of the form " : v\n..." captures
exactly v when v is non-empty and contains no newline. -/
theorem matchTail_colon_value (v r : List Char) (hv : v ≠ [])
    (hnl : ∀ c ∈ v, c ≠ '\n') :
    matchTail (' ' :: ':' :: ' ' :: (v ++ '\n' :: r)) = some v := by
  unfold matchTail
  have hdrop : (' ' :: ':' :: ' ' :: (v ++ '\n' :: r)).dropWhile isPySpace =
      ':' :: ' ' :: (v ++ '\n' :: r) := by
    simp [List.dropWhile, isPySpace]
  rw [hdrop]
  have hsp : isPySpace ' ' = true := by decide
  show (if (':' : Char) = ':' then
      (if isPySpace ' ' = true then captureLine (v ++ '\n' :: r) else none)
    else none) = some v
  rw [if_pos rfl, if_pos hsp]
  unfold captureLine
  have hvp : ∀ c ∈ v, (fun ch => !(ch = '\n')) c = true := by
    intro c hc
    simpa using hnl c hc
  obtain ⟨h1, h2⟩ := takeWhile_dropWhile_append (fun ch => !(ch = '\n')) v r
    '\n' hvp (by simp)
  rw [h1, h2]
  simp [hv]

/-- C9: the line pattern demands a newline after the captured value.  A
field occurrence of the form field : value sitting on the final line with
no trailing newline yields no record at all (the whole parse gives the
empty list), while the same text followed by a newline yields the record
for that field. -/
theorem c9_final_line_needs_newline (event pref v : String)
    (prefs : List String) (hev : prefsListFor event = some prefs)
    (hmem : pref ∈ prefs) (hv : v ≠ "")
    (hnlp : ∀ c ∈ pref.data, c ≠ '\n') (hnlv : ∀ c ∈ v.data, c ≠ '\n') :
    resolve_preferences (pref ++ " : " ++ v) event = some [] ∧
    { pref_name := pref, pref_val := String.mk (resolveValue v.data) } ∈
      (resolve_preferences (pref ++ " : " ++ v ++ "\n") event).getD [] := by
  have hColon : (" : " : String).data = [' ', ':', ' '] := rfl
  constructor
  · simp only [resolve_preferences, hev, Option.map_some', Option.some.injEq]
    rw [List.filterMap_eq_nil_iff]
    intro p hp
    have hnone : reSearch p.data (pref ++ " : " ++ v).data = none := by
      apply reSearch_eq_none_of_no_newline
      intro c hc
      rw [String.data_append, String.data_append] at hc
      rcases List.mem_append.mp hc with hc1 | hc2
      · rcases List.mem_append.mp hc1 with hc3 | hc4
        · exact hnlp c hc3
        · rw [hColon] at hc4
          fin_cases hc4 <;> decide
      · exact hnlv c hc2
    rw [hnone]
    rfl
  · have hvd : v.data ≠ [] := by
      intro hd
      apply hv
      cases v
      simp_all
    have hdata : (pref ++ " : " ++ v ++ "\n").data =
        pref.data ++ (' ' :: ':' :: ' ' :: (v.data ++ '\n' :: [])) := by
      simp [String.data_append, hColon]
    have hsearch : reSearch pref.data (pref ++ " : " ++ v ++ "\n").data =
        some v.data := by
      rw [hdata]
      apply reSearch_of_tryMatchAt
      rw [tryMatchAt_self_append]
      exact matchTail_colon_value v.data [] hvd hnlv
    simp only [resolve_preferences, hev, Option.map_some', Option.getD_some]
    rw [List.mem_filterMap]
    exact ⟨pref, hmem, by rw [hsearch]; rfl⟩

/-- Witness for C9: AntivirusEnabled : True as the final unterminated line
parses to nothing, and the same line with a trailing newline parses to its
record. -/
theorem c9_final_line_needs_newline_witness :
    resolve_preferences ("AntivirusEnabled" ++ " : " ++ "True")
      "Get-MpComputerStatus" = some [] ∧
    { pref_name := "AntivirusEnabled",
      pref_val := String.mk (resolveValue "True".data) } ∈
      (resolve_preferences ("AntivirusEnabled" ++ " : " ++ "True" ++ "\n")
        "Get-MpComputerStatus").getD [] :=
  c9_final_line_needs_newline "Get-MpComputerStatus" "AntivirusEnabled"
    "True" statusPrefList rfl (by decide) (by decide) (by decide) (by decide)

/-- C2: whenever the pattern for a schema field captures a value in the raw
text, the emitted record for that field carries hex(int(v)) when the
brace-stripped trimmed value is all decimal digits, and the brace-stripped
trimmed value unchanged otherwise. -/
theorem c2_digit_values_to_hex (raw event pref : String)
    (prefs : List String) (cap : List Char)
    (hev : prefsListFor event = some prefs) (hmem : pref ∈ prefs)
    (hcap : reSearch pref.data raw.data = some cap) :
    (pyIsDigit (pyStrip (stripBraces cap)) = true →
      { pref_name := pref,
        pref_val :=
          String.mk (pyHex (decVal (pyStrip (stripBraces cap)))) } ∈
        (resolve_preferences raw event).getD []) ∧
    (pyIsDigit (pyStrip (stripBraces cap)) = false →
      { pref_name := pref,
        pref_val := String.mk (pyStrip (stripBraces cap)) } ∈
        (resolve_preferences raw event).getD []) := by
  constructor <;> intro hdig <;>
    simp only [resolve_preferences, hev, Option.map_some',
      Option.getD_some] <;>
    rw [List.mem_filterMap] <;>
    exact ⟨pref, hmem, by rw [hcap]; simp [resolveValue, hdig]⟩

/-- Witness for C2 at the end-to-end scenario: the line ScanParameters : 1
captures the digit-only value 1 and the parse emits the record with the
hexadecimal value 0x1. -/
theorem c2_digit_values_to_hex_witness :
    reSearch "ScanParameters".data "ScanParameters : 1\n".data =
      some ['1'] ∧
    pyIsDigit (pyStrip (stripBraces ['1'])) = true ∧
    { pref_name := "ScanParameters", pref_val := "0x1" } ∈
      (resolve_preferences "ScanParameters : 1\n"
        "Get-MpPreference").getD [] := by
  refine ⟨by decide, by decide, ?_⟩
  have h := (c2_digit_values_to_hex "ScanParameters : 1\n"
    "Get-MpPreference" "ScanParameters" mpPrefsList ['1'] rfl (by decide)
    (by decide)).1 (by decide)
  have hval : String.mk (pyHex (decVal (pyStrip (stripBraces ['1'])))) =
      "0x1" := by decide
  rw [hval] at h
  exact h

/-- C6 counterexample: for the validated event Set-MpPreference with
non-empty stdout, the resolve_preferences call made while building the
settings message raises (the event has no parser entry), killing the task
before the stderr check: nothing is published for the host even though
stderr is longer than one character, refuting the published-iff-longer-
than-one claim over all returning outcomes. -/
theorem c6_crash_path_counterexample :
    process_invoking_command "h1" "Set-MpPreference" (.ok ("x", "boom")) =
      ([], true) ∧
    ("boom" : String).length > 1 := by
  constructor
  · rfl
  · decide

/-- C6 amended: restricted to returning outcomes whose stdout is empty or
whose event is one of the two parsed Get- events, the error notification is
published exactly when stderr is longer than one character, and
independently the settings/status message is published exactly when stdout
is non-empty — the two routings are not mutually exclusive. -/
theorem c6_stderr_threshold_scoped (h ev out err : String)
    (hscope : out = "" ∨ ev = "Get-MpPreference" ∨
      ev = "Get-MpComputerStatus") :
    (((process_invoking_command h ev (.ok (out, err))).1.filter
        Pub.isErrorNote).length = if err.length > 1 then 1 else 0) ∧
    (((process_invoking_command h ev (.ok (out, err))).1.filter
        Pub.isResultMsg).length = if out ≠ "" then 1 else 0) := by
  have hne : err.length > 1 → ¬ err = "" := by
    intro hl he
    rw [he] at hl
    exact absurd hl (by decide)
  rcases hscope with hout | hev | hev
  · subst hout
    by_cases herr : err.length > 1
    · simp [process_invoking_command, herr, hne herr, Pub.isErrorNote,
        Pub.isResultMsg]
    · simp [process_invoking_command, herr, Pub.isErrorNote,
        Pub.isResultMsg]
  · subst hev
    by_cases hout : out = ""
    · subst hout
      by_cases herr : err.length > 1
      · simp [process_invoking_command, herr, hne herr, Pub.isErrorNote,
          Pub.isResultMsg]
      · simp [process_invoking_command, herr, Pub.isErrorNote,
          Pub.isResultMsg]
    · by_cases herr : err.length > 1
      · simp [process_invoking_command, resolve_preferences, prefsListFor,
          herr, hne herr, hout, Pub.isErrorNote, Pub.isResultMsg,
          List.filter_append]
      · simp [process_invoking_command, resolve_preferences, prefsListFor,
          herr, hout, Pub.isErrorNote, Pub.isResultMsg,
          List.filter_append]
  · subst hev
    by_cases hout : out = ""
    · subst hout
      by_cases herr : err.length > 1
      · simp [process_invoking_command, herr, hne herr, Pub.isErrorNote,
          Pub.isResultMsg]
      · simp [process_invoking_command, herr, Pub.isErrorNote,
          Pub.isResultMsg]
    · by_cases herr : err.length > 1
      · simp [process_invoking_command, resolve_preferences, prefsListFor,
          herr, hne herr, hout, Pub.isErrorNote, Pub.isResultMsg,
          List.filter_append]
      · simp [process_invoking_command, resolve_preferences, prefsListFor,
          herr, hout, Pub.isErrorNote, Pub.isResultMsg,
          List.filter_append]

/-- Witness for C6 amended: for Get-MpPreference with parseable stdout and
a four-character stderr, both the settings message and the error message
are published for the same host. -/
theorem c6_stderr_threshold_scoped_witness :
    (("ScanParameters : 1\n" : String) = "" ∨
      ("Get-MpPreference" : String) = "Get-MpPreference" ∨
      ("Get-MpPreference" : String) = "Get-MpComputerStatus") ∧
    (((process_invoking_command "h1" "Get-MpPreference"
        (.ok ("ScanParameters : 1\n", "boom"))).1.filter
        Pub.isErrorNote).length =
      if ("boom" : String).length > 1 then 1 else 0) ∧
    (((process_invoking_command "h1" "Get-MpPreference"
        (.ok ("ScanParameters : 1\n", "boom"))).1.filter
        Pub.isResultMsg).length =
      if ("ScanParameters : 1\n" : String) ≠ "" then 1 else 0) :=
  ⟨Or.inr (Or.inl rfl),
    c6_stderr_threshold_scoped "h1" "Get-MpPreference"
      "ScanParameters : 1\n" "boom" (Or.inr (Or.inl rfl))⟩

/-- Stdout of a runner outcome; a raising invocation produced none. -/
def stdoutOf : RunnerOutcome → String
  | .ok (out, _) => out
  | .error _ => ""

/-- Helper: every per-host task trace contains no acknowledgment-route
message, at most one settings/status message, at most one error-route
message, at most two messages in total, and no settings/status message at
all when stdout was empty or the runner raised. -/
theorem process_trace_bounds (h ev : String) (o : RunnerOutcome) :
    (∀ p ∈ (process_invoking_command h ev o).1, p.route ≠ 1) ∧
    ((process_invoking_command h ev o).1.filter Pub.isResultMsg).length
      ≤ 1 ∧
    ((process_invoking_command h ev o).1.filter Pub.isErrorNote).length
      ≤ 1 ∧
    (process_invoking_command h ev o).1.length ≤ 2 ∧
    (stdoutOf o = "" →
      ((process_invoking_command h ev o).1.filter Pub.isResultMsg)
        = []) := by
  rcases o with e | ⟨out, err⟩
  · simp [process_invoking_command, stdoutOf, Pub.isResultMsg,
      Pub.isErrorNote]
  · by_cases hout : out = ""
    · subst hout
      by_cases herr : err ≠ "" ∧ err.length > 1
      · simp [process_invoking_command, stdoutOf, herr, Pub.isResultMsg,
          Pub.isErrorNote]
      · simp [process_invoking_command, stdoutOf, herr, Pub.isResultMsg,
          Pub.isErrorNote]
    · cases hres : resolve_preferences out ev with
      | none =>
        simp [process_invoking_command, stdoutOf, hout, hres]
      | some prefs =>
        by_cases hev1 : ev = "Get-MpPreference"
        · subst hev1
          by_cases herr : err ≠ "" ∧ err.length > 1 <;>
            simp [process_invoking_command, stdoutOf, hout, hres, herr,
              Pub.isResultMsg, Pub.isErrorNote, List.filter_append]
        · by_cases hev2 : ev = "Get-MpComputerStatus"
          · subst hev2
            by_cases herr : err ≠ "" ∧ err.length > 1 <;>
              simp [process_invoking_command, stdoutOf, hout, hres, herr,
                Pub.isResultMsg, Pub.isErrorNote, List.filter_append]
          · by_cases herr : err ≠ "" ∧ err.length > 1 <;>
              simp [process_invoking_command, stdoutOf, hout, hres, hev1,
                hev2, herr, Pub.isResultMsg, Pub.isErrorNote,
                List.filter_append]

/-- C1: for a validated job request the handler result is the receipt
acknowledgment carrying the task id (published before any task is created)
together with one task per hostname; no task ever publishes on the
acknowledgment route, each task publishes at most one settings/status and
at most one error message (at most two in total, hence at most 2 times H
result-class messages overall), and a task whose stdout was empty publishes
no settings/status message. -/
theorem c1_ack_first_and_message_budget (b : BodyModel)
    (runner : String → RunnerOutcome)
    (hvalid : b.event ∈ COMMANDS_IN_USE) :
    call_handler (.record b.hostnames b.task_id b.event b.preferences)
        runner =
      .ok ({ route := 1, body := .ack b.task_id },
        dispatchTasks b runner) ∧
    (dispatchTasks b runner).length = b.hostnames.length ∧
    (∀ t ∈ dispatchTasks b runner,
      (∀ p ∈ t.1, p.route ≠ 1) ∧
      (t.1.filter Pub.isResultMsg).length ≤ 1 ∧
      (t.1.filter Pub.isErrorNote).length ≤ 1 ∧
      t.1.length ≤ 2) ∧
    ((dispatchTasks b runner).map (fun t => t.1.length)).sum ≤
      2 * b.hostnames.length ∧
    (∀ h ∈ b.hostnames, stdoutOf (runner h) = "" →
      ((process_invoking_command h b.event (runner h)).1.filter
        Pub.isResultMsg) = []) := by
  refine ⟨?_, ?_, ?_, ?_, ?_⟩
  · simp [call_handler, get_body, hvalid]
  · simp [dispatchTasks]
  · intro t ht
    rw [dispatchTasks, List.mem_map] at ht
    obtain ⟨h, hh, rfl⟩ := ht
    obtain ⟨h1, h2, h3, h4, _⟩ := process_trace_bounds h b.event (runner h)
    exact ⟨h1, h2, h3, h4⟩
  · have hb : ∀ x ∈ (dispatchTasks b runner).map (fun t => t.1.length),
        x ≤ 2 := by
      intro x hx
      rw [List.mem_map] at hx
      obtain ⟨t, ht, rfl⟩ := hx
      rw [dispatchTasks, List.mem_map] at ht
      obtain ⟨h, hh, rfl⟩ := ht
      exact (process_trace_bounds h b.event (runner h)).2.2.2.1
    have hs := List.sum_le_card_nsmul
      ((dispatchTasks b runner).map (fun t => t.1.length)) 2 hb
    rw [List.length_map] at hs
    have hlen : (dispatchTasks b runner).length = b.hostnames.length := by
      simp [dispatchTasks]
    rw [hlen] at hs
    simpa [smul_eq_mul, Nat.mul_comm] using hs
  · intro h hh hso
    exact (process_trace_bounds h b.event (runner h)).2.2.2.2 hso

/-- Concrete job request of end-to-end scenario 1. -/
def scenarioBody : BodyModel :=
  { hostnames := ["h1", "h2"], task_id := 42,
    event := "Get-MpComputerStatus", preferences := [] }

/-- Concrete runner for the witness: both hosts answer with one status
line and empty stderr. -/
def scenarioRunner : String → RunnerOutcome :=
  fun _ => .ok ("AntivirusEnabled : True\n", "")

/-- Witness for C1 at end-to-end scenario 1: two hostnames, task id 42,
event Get-MpComputerStatus. -/
theorem c1_ack_first_and_message_budget_witness :
    scenarioBody.event ∈ COMMANDS_IN_USE ∧
    (call_handler (.record scenarioBody.hostnames scenarioBody.task_id
        scenarioBody.event scenarioBody.preferences) scenarioRunner =
      .ok ({ route := 1, body := .ack scenarioBody.task_id },
        dispatchTasks scenarioBody scenarioRunner) ∧
    (dispatchTasks scenarioBody scenarioRunner).length =
      scenarioBody.hostnames.length ∧
    (∀ t ∈ dispatchTasks scenarioBody scenarioRunner,
      (∀ p ∈ t.1, p.route ≠ 1) ∧
      (t.1.filter Pub.isResultMsg).length ≤ 1 ∧
      (t.1.filter Pub.isErrorNote).length ≤ 1 ∧
      t.1.length ≤ 2) ∧
    ((dispatchTasks scenarioBody scenarioRunner).map
      (fun t => t.1.length)).sum ≤ 2 * scenarioBody.hostnames.length ∧
    (∀ h ∈ scenarioBody.hostnames, stdoutOf (scenarioRunner h) = "" →
      ((process_invoking_command h scenarioBody.event
        (scenarioRunner h)).1.filter Pub.isResultMsg) = [])) :=
  ⟨by decide,
    c1_ack_first_and_message_budget scenarioBody scenarioRunner (by decide)⟩
